import Mathlib

/-!
Shallow embedding of the opendic-benchmark measurement/logging utility.

The repository issues DDL operations against several database backends,
times each operation, and appends a timing row to a per-backend results
table in a local DuckDB store.  This file embeds, faithfully to the
Python source:

* the enumerations of `consts.py` and of
  `experiment_logger/data_recorder.py` (the latter file defines its own
  four-member `DatabaseSystem`, without the open-dictionary backends);
* the results store (tables of rows with the nine-column layout and the
  five-column primary key declared by `DataRecorder._initialize_tables`),
  with DuckDB's `CREATE TABLE IF NOT EXISTS` and primary-key-checked
  `INSERT` semantics;
* `DataRecorder._initialize_tables` and `DataRecorder.record`, including
  the dynamic typing of the `granularity` argument (`record` evaluates
  `granularity.value`, which raises `AttributeError` on a plain `int`);
* `runner.execute_timed_query` and the experiment driver loop of
  `main.py` (`create_tables`, `alter_tables`, `_comment_object`,
  `show_objects`, `drop_schema`, `experiment_standard`), over an abstract
  backend-driver oracle and an explicit state (wall clock, dispatched
  queries, log messages, results store);
* the attribute set of the `DataRecorder` class and the cleanup step of
  `main` (`close_database` followed by `recorder.close()`).

Backend driver libraries, secret/config loading and the exact dialect
text of backend-specific queries are opaque collaborators per the spec;
queries are modelled by their (abbreviated, quote-free) text and an
oracle deciding whether each dispatch raises and how long it takes.
-/

namespace OpendicBenchmark

/-! ## Enumerations of `consts.py` -/

namespace consts

/-- `DatabaseSystem` of `consts.py`: nine members, including the
open-dictionary catalog backends. -/
inductive DatabaseSystem where
  | SQLITE
  | POSTGRES
  | DUCKDB
  | SNOWFLAKE
  | OPENDIC_POLARIS_FILE
  | OPENDIC_POLARIS_FILE_BATCH
  | OPENDIC_POLARIS_FILE_CACHED
  | OPENDIC_POLARIS_FILE_CACHED_BATCH
  | OPENDIC_POLARIS_AZURE
deriving DecidableEq, Repr

/-- The `.value` attribute of `consts.DatabaseSystem` members. -/
def DatabaseSystem.value : DatabaseSystem → String
  | .SQLITE => "sqlite"
  | .POSTGRES => "postgres"
  | .DUCKDB => "duckDB"
  | .SNOWFLAKE => "snowflake"
  | .OPENDIC_POLARIS_FILE => "opendict_polaris_file"
  | .OPENDIC_POLARIS_FILE_BATCH => "opendict_polaris_file_batch"
  | .OPENDIC_POLARIS_FILE_CACHED => "opendict_polaris_file_cache"
  | .OPENDIC_POLARIS_FILE_CACHED_BATCH => "opendict_polaris_file_cache_batch"
  | .OPENDIC_POLARIS_AZURE => "opendict_polaris_cloud_azure"

/-- `DatabaseObject` enum (identical copies in `consts.py` and
`data_recorder.py`). -/
inductive DatabaseObject where
  | TABLE | INDEX | VIEW | FUNCTION | SEQUENCE | DATABASE
deriving DecidableEq, Repr

/-- The `.value` attribute of `DatabaseObject` members. -/
def DatabaseObject.value : DatabaseObject → String
  | .TABLE => "table"
  | .INDEX => "index"
  | .VIEW => "view"
  | .FUNCTION => "function"
  | .SEQUENCE => "sequence"
  | .DATABASE => "database"

/-- `Granularity` enum (identical copies in `consts.py` and
`data_recorder.py`). -/
inductive Granularity where
  | s_1 | s_10 | s_100 | s_1000 | s_10000 | s_100000
deriving DecidableEq, Repr

/-- The `.value` attribute of `Granularity` members. -/
def Granularity.value : Granularity → Nat
  | .s_1 => 1
  | .s_10 => 10
  | .s_100 => 100
  | .s_1000 => 1000
  | .s_10000 => 10000
  | .s_100000 => 100000

/-- `DDLCommand` enum (identical copies in `consts.py` and
`data_recorder.py`). -/
inductive DDLCommand where
  | CREATE | DROP | ALTER | COMMENT | SHOW
deriving DecidableEq, Repr

/-- The `.value` attribute of `DDLCommand` members. -/
def DDLCommand.value : DDLCommand → String
  | .CREATE => "CREATE"
  | .DROP => "DROP"
  | .ALTER => "ALTER"
  | .COMMENT => "COMMENT"
  | .SHOW => "SHOW"

/-- `OPENDIC_EXPS` of `consts.py` (five members). -/
def OPENDIC_EXPS : List DatabaseSystem :=
  [.OPENDIC_POLARIS_AZURE, .OPENDIC_POLARIS_FILE, .OPENDIC_POLARIS_FILE_CACHED,
   .OPENDIC_POLARIS_FILE_CACHED_BATCH, .OPENDIC_POLARIS_FILE_BATCH]

end consts

/-! ## The `DatabaseSystem` enum defined inside `data_recorder.py` -/

namespace data_recorder

/-- `DatabaseSystem` as defined in
`experiment_logger/data_recorder.py`: only the four standard backends,
with no open-dictionary members. -/
inductive DatabaseSystem where
  | SQLITE | POSTGRES | DUCKDB | SNOWFLAKE
deriving DecidableEq, Repr

/-- The `.value` attribute of the recorder module's `DatabaseSystem`. -/
def DatabaseSystem.value : DatabaseSystem → String
  | .SQLITE => "sqlite"
  | .POSTGRES => "postgres"
  | .DUCKDB => "duckDB"
  | .SNOWFLAKE => "snowflake"

/-- The iteration order of `for system in DatabaseSystem` in
`_initialize_tables` (Python enums iterate in declaration order). -/
def DatabaseSystem.members : List DatabaseSystem :=
  [.SQLITE, .POSTGRES, .DUCKDB, .SNOWFLAKE]

end data_recorder

/-! ## The results store (the local DuckDB file)

`_initialize_tables` declares, per backend, a table with columns
`(system_name, ddl_command, query_text, target_object, granularity,
repetition_nr, query_runtime, start_time, end_time)` and
`PRIMARY KEY(system_name, ddl_command, target_object, granularity,
repetition_nr)`.  Timestamps are modelled as naturals, the DOUBLE
runtime column as a rational (the recorder only stores it, never
computes with it). -/

/-- One row of a results table: the nine columns in declaration order. -/
structure Row where
  system_name : String
  ddl_command : String
  query_text : String
  target_object : String
  granularity : Int
  repetition_nr : Int
  query_runtime : Rat
  start_time : Nat
  end_time : Nat
deriving DecidableEq, Repr

/-- The five-column primary key declared by the `CREATE TABLE`
statement of `_initialize_tables`. -/
def Row.primaryKey (r : Row) : String × String × String × Int × Int :=
  (r.system_name, r.ddl_command, r.target_object, r.granularity, r.repetition_nr)

/-- The embedded analytical store: an association list from table name
to the table's rows, in insertion order. -/
abbrev Store := List (String × List Row)

/-- Whether a table of the given name exists in the store. -/
def Store.hasTable (s : Store) (name : String) : Bool :=
  s.any (fun t => t.1 == name)

/-- The rows of the named table, when it exists. -/
def Store.getTable (s : Store) (name : String) : Option (List Row) :=
  (s.find? (fun t => t.1 == name)).map (fun t => t.2)

/-- DuckDB `CREATE TABLE IF NOT EXISTS`: a no-op when the table already
exists, otherwise adds an empty table.  Never raises. -/
def Store.createTableIfNotExists (s : Store) (name : String) : Store :=
  if s.hasTable name then s else s ++ [(name, [])]

/-- Errors raised by the Python code modelled in this file. -/
inductive PyErr where
  /-- `AttributeError`: attribute lookup failed (carries the attribute name). -/
  | attributeError (attr : String)
  /-- `ValueError` (carries the message). -/
  | valueError (msg : String)
  /-- A backend driver raised while dispatching a query (carries the query). -/
  | queryError (query : String)
  /-- DuckDB: the target table of an INSERT does not exist. -/
  | duckdbCatalogError (table : String)
  /-- DuckDB: an INSERT violated the declared PRIMARY KEY. -/
  | duckdbConstraintError
deriving DecidableEq, Repr

/-- DuckDB `INSERT`: fails when the table is missing or the row's
primary key duplicates a stored row's; otherwise appends the row,
leaving the table unchanged on error. -/
def Store.insertRow (s : Store) (name : String) (r : Row) : Except PyErr Store :=
  match s.getTable name with
  | none => .error (.duckdbCatalogError name)
  | some rows =>
    if rows.any (fun q => q.primaryKey == r.primaryKey) then
      .error .duckdbConstraintError
    else
      .ok (s.map (fun t => if t.1 == name then (t.1, t.2 ++ [r]) else t))

/-- Reading back: the first row of the named table matching the given
primary key. -/
def Store.selectRow (s : Store) (name : String)
    (key : String × String × String × Int × Int) : Option Row :=
  (s.getTable name).bind (fun rows => rows.find? (fun r => r.primaryKey == key))

/-- The dynamic table name `f"\x7bsystem.value\x7ddb_logs"` computed in both
`_initialize_tables` and `record`. -/
def log_table_name (system_value : String) : String :=
  system_value ++ "db_logs"

/-! ## `DataRecorder` -/

/-- A Python value passed as the `granularity` argument of
`DataRecorder.record`.  The annotation says `Granularity`, but Python
does not enforce it: the `create_tables` drivers pass the plain loop
index. -/
inductive GranularityArg where
  | enumMember (g : consts.Granularity)
  | intLit (n : Int)
deriving DecidableEq, Repr

/-- Python attribute access `granularity.value` inside `record`: a
`Granularity` member yields its value, a plain `int` raises
`AttributeError` (ints have no `.value`). -/
def GranularityArg.valueAttr : GranularityArg → Except PyErr Int
  | .enumMember g => .ok (g.value : Int)
  | .intLit _ => .error (.attributeError "value")

/-- Whether the argument is a plain `int` rather than an enum member. -/
def GranularityArg.isIntLit : GranularityArg → Bool
  | .enumMember _ => false
  | .intLit _ => true

namespace DataRecorder

/-- `DataRecorder._initialize_tables`: for each member of the recorder
module's own `DatabaseSystem` enum, `CREATE TABLE IF NOT EXISTS` the
backend's results table.  Never raises. -/
def _initialize_tables (s : Store) : Store :=
  data_recorder.DatabaseSystem.members.foldl
    (fun st system => st.createTableIfNotExists (log_table_name system.value)) s

/-- `DataRecorder.record`: computes the dynamic table name, builds the
parameter tuple (evaluating `granularity.value` — this happens before
any store connection is opened), then runs the parameterized INSERT.
The field values are passed as parameters (`VALUES (?, ..., ?)`), never
spliced into the query string, so they reach the row verbatim.  The
`system` argument is annotated with the recorder's four-member enum but
callers pass `consts.DatabaseSystem` members; only `.value` is used. -/
def record (store : Store) (system : consts.DatabaseSystem)
    (ddl_command : consts.DDLCommand) (query_text : String)
    (target_object : consts.DatabaseObject) (granularity : GranularityArg)
    (repetition_nr : Int) (query_runtime : Rat)
    (start_time end_time : Nat) : Except PyErr Store :=
  let table_name := log_table_name system.value
  match granularity.valueAttr with
  | .error e => .error e
  | .ok granularity_value =>
    let row : Row :=
      { system_name := system.value
        ddl_command := ddl_command.value
        query_text := query_text
        target_object := target_object.value
        granularity := granularity_value
        repetition_nr := repetition_nr
        query_runtime := query_runtime
        start_time := start_time
        end_time := end_time }
    store.insertRow table_name row

/-- The attributes a `DataRecorder` instance exposes: the instance
attribute set in `__init__` and the methods of the class body.  There
is no `close`. -/
def attributes : List String :=
  ["__init__", "db_name", "_initialize_tables", "record"]

end DataRecorder

/-! ## The experiment driver loop

The driver loop is stateful: it dispatches queries to a backend,
advances the wall clock, writes log messages, and appends rows through
the recorder.  The state is explicit; exceptions are `Except` values
that short-circuit like Python exceptions and can be caught like
`try/except`. -/

/-- The explicit state threaded through the driver loop. -/
structure ExpState where
  /-- The wall clock read by `datetime.now()` (non-decreasing). -/
  clock : Nat
  /-- Every query dispatched to the backend, in dispatch order. -/
  executed : List String
  /-- Messages written through `logging.info` and `logging.error`. -/
  logs : List String
  /-- The contents of the recorder's DuckDB store. -/
  store : Store
  /-- Values consumed by `random.randint` calls, in order. -/
  randoms : List Nat
  /-- The `(granularity, repetition_nr)` argument pair of each
  `recorder.record(...)` call, in call order. -/
  record_args : List (GranularityArg × Int)
deriving DecidableEq, Repr

/-- A stateful computation that may raise: Python code returning `α`. -/
def ExpM (α : Type) : Type := ExpState → Except PyErr α × ExpState

instance : Monad ExpM where
  pure a := fun s => (.ok a, s)
  bind x f := fun s =>
    match x s with
    | (.ok a, s2) => f a s2
    | (.error e, s2) => (.error e, s2)

/-- Raise an exception. -/
def throwE {α : Type} (e : PyErr) : ExpM α := fun s => (.error e, s)

/-- `try x except e: handler e` — the state reached at the raise point
is kept, as in Python. -/
def catchE {α : Type} (x : ExpM α) (handler : PyErr → ExpM α) : ExpM α := fun s =>
  match x s with
  | (.ok a, s2) => (.ok a, s2)
  | (.error e, s2) => handler e s2

/-- Append one log message. -/
def logMsg (msg : String) : ExpM Unit := fun s =>
  (.ok (), { s with logs := s.logs ++ [msg] })

/-- `random.randint(0, hi)`: consume the next scripted random value,
clamped into range (the value itself is irrelevant to every claim). -/
def nextRandom (hi : Nat) : ExpM Nat := fun s =>
  (.ok (min (s.randoms.headD 0) hi), { s with randoms := s.randoms.tail })

/-- Abstract behaviour of the backend drivers: whether dispatching a
given query on a given backend raises, and how much wall-clock time the
dispatch consumes.  The per-backend call conventions (execute/commit,
cursor open/close, catalog `sql`) are opaque collaborators per the
spec; a dispatch either completes or raises, deterministically in the
pair (backend, query). -/
structure Driver where
  run : consts.DatabaseSystem → String → Except PyErr Unit
  elapsed : consts.DatabaseSystem → String → Nat

/-- `runner.execute_timed_query` (duplicated as `_execute_timed_query`
in `main.py`): writes the progress line, captures `start_time`
immediately before dispatching the query through the backend's call
convention, dispatches exactly once, captures `end_time` immediately
after completion, and returns `(start_time, end_time, end - start)`.
A driver exception propagates uncaught: no retry, no partial result. -/
def execute_timed_query (driver : Driver) (database_system : consts.DatabaseSystem)
    (query : String) : ExpM (Nat × Nat × Int) := fun s =>
  let start_time := s.clock
  match driver.run database_system query with
  | .error e => (.error e, { s with executed := s.executed ++ [query] })
  | .ok _ =>
    let end_time := start_time + driver.elapsed database_system query
    (.ok (start_time, end_time, (end_time : Int) - (start_time : Int)),
     { s with executed := s.executed ++ [query], clock := end_time })

/-- A dispatch made outside `_execute_timed_query` (the schema-setup
cursor calls of the Snowflake branch, the SQLite cleanup in
`_comment_object`): executes once, untimed. -/
def rawExecute (driver : Driver) (database_system : consts.DatabaseSystem)
    (query : String) : ExpM Unit := fun s =>
  match driver.run database_system query with
  | .error e => (.error e, { s with executed := s.executed ++ [query] })
  | .ok _ => (.ok (), { s with executed := s.executed ++ [query] })

/-- `recorder.record(*record)` as called from the driver loop: runs
`DataRecorder.record` on the store inside the state, recording the
`(granularity, repetition_nr)` arguments of the call. -/
def recorder_record (system : consts.DatabaseSystem) (ddl_command : consts.DDLCommand)
    (query_text : String) (target_object : consts.DatabaseObject)
    (granularity : GranularityArg) (repetition_nr : Int) (query_runtime : Rat)
    (start_time end_time : Nat) : ExpM Unit := fun s =>
  match DataRecorder.record s.store system ddl_command query_text target_object
      granularity repetition_nr query_runtime start_time end_time with
  | .ok store2 =>
    (.ok (), { s with store := store2,
                      record_args := s.record_args ++ [(granularity, repetition_nr)] })
  | .error e =>
    (.error e, { s with record_args := s.record_args ++ [(granularity, repetition_nr)] })

/-! ## Query strings built by the drivers

Backend dialect text is out of scope per the spec: where the source
builds a long PROPS/JSON body or quotes a literal, the body is
abbreviated to `...` and quotes are elided.  The structure of each
string (command, object name with index, column clause) is kept. -/

/-- The standard `CREATE TABLE` query for table `i`; also the text
logged by `main.create_tables` regardless of backend. -/
def create_table_query (i : Nat) : String :=
  "CREATE TABLE t_" ++ toString i ++ " (id INTEGER PRIMARY KEY, value TEXT);"

/-- The DuckDB schema-setup query of `create_tables`. -/
def duckdb_init_query : String := "CREATE schema experiment; use experiment;"

/-- The open-dictionary type-definition query of `create_tables`. -/
def opendic_define_query : String := "DEFINE OPEN table PROPS ..."

/-- The open-dictionary `CREATE` query for table `i`. -/
def opendic_create_query (i : Nat) : String :=
  "CREATE OPEN table t_" ++ toString i ++ " PROPS ..."

/-- The open-dictionary `ALTER` query of `alter_tables`. -/
def opendic_alter_query (table_num : Nat) (num_exp : Int) : String :=
  "ALTER OPEN table t_" ++ toString table_num ++ " PROPS altered_" ++ toString num_exp ++ " ..."

/-- The open-dictionary comment-carrying `ALTER` query of `_comment_object`. -/
def opendic_comment_query (object_num : Nat) (num_exp : Int) : String :=
  "ALTER OPEN table t_" ++ toString object_num ++ " PROPS altered_" ++ toString num_exp
    ++ " comment altered ..."

/-- The Postgres table-listing query of `show_objects`. -/
def postgres_show_query : String :=
  "SELECT n.nspname AS schema_name, c.relname AS table_name FROM pg_catalog.pg_class c ..."

/-! ## The driver loop of `main.py` -/

/-- `OPENDIC_EXPS` as defined at the top of `main.py`: only three
members (the two BATCH backends are absent there). -/
def main_OPENDIC_EXPS : List consts.DatabaseSystem :=
  [.OPENDIC_POLARIS_AZURE, .OPENDIC_POLARIS_FILE, .OPENDIC_POLARIS_FILE_CACHED]

/-- `connect_standard_database`: returns a connection for the four
standard backends and raises `ValueError` otherwise.  The connection
handle itself is opaque; config/secret loading is out of scope. -/
def connect_standard_database (database_system : consts.DatabaseSystem) : ExpM Unit :=
  match database_system with
  | .SQLITE => pure ()
  | .DUCKDB => pure ()
  | .POSTGRES => pure ()
  | .SNOWFLAKE => pure ()
  | _ => throwE (.valueError "Unknown database system")

/-- The `for i in range(i0, i0 + fuel)` loop of `main.create_tables`:
per iteration, build the backend-appropriate query, dispatch it timed,
and (when `logging`) record the result — passing the *raw loop index*
`i` as `granularity` and the constant `0` as `repetition_nr`, with the
fixed standard `CREATE TABLE` text as the logged query. -/
def main_create_loop (driver : Driver) (database_system : consts.DatabaseSystem)
    (logging : Bool) : Nat → Nat → ExpM Unit
  | _, 0 => pure ()
  | i, fuel + 1 => do
    let query :=
      if database_system ∈ main_OPENDIC_EXPS then opendic_create_query i
      else create_table_query i
    let (start_time, end_time, query_time) ← execute_timed_query driver database_system query
    if logging then
      recorder_record database_system .CREATE (create_table_query i) .TABLE
        (.intLit (i : Int)) 0 (query_time : Rat) start_time end_time
    else pure ()
    main_create_loop driver database_system logging (i + 1) fuel

/-- `main.create_tables`: schema setup per backend (DuckDB init query,
Snowflake cursor calls on a fresh connection, open-dictionary DEFINE),
then the creation loop over `range(num_objects.value)`. -/
def main_create_tables (driver : Driver) (database_system : consts.DatabaseSystem)
    (num_objects : consts.Granularity) (logging : Bool) : ExpM Unit := do
  if database_system = .DUCKDB then
    let _ ← execute_timed_query driver database_system duckdb_init_query
    pure ()
  else if database_system = .SNOWFLAKE then
    rawExecute driver database_system "CREATE or replace SCHEMA metadata_experiment"
    rawExecute driver database_system "use schema metadata_experiment;"
  else if database_system ∈ main_OPENDIC_EXPS then
    let _ ← execute_timed_query driver database_system opendic_define_query
    pure ()
  else pure ()
  main_create_loop driver database_system logging 0 num_objects.value

/-- `main._comment_object`: build the backend-dependent comment query,
dispatch it timed, record with `DDLCommand.COMMENT` (passing the
`Granularity` enum member and `num_exp`), then the SQLite rename
cleanup. -/
def main_comment_object (driver : Driver) (database_system : consts.DatabaseSystem)
    (database_object : consts.DatabaseObject) (granularity : consts.Granularity)
    (num_exp : Int) : ExpM Unit := do
  let object_num ← nextRandom (granularity.value - 1)
  let comment_query :=
    if database_system = .SQLITE ∧ database_object.value = "table" then
      "alter " ++ database_object.value ++ " t_" ++ toString object_num
        ++ " RENAME COLUMN value TO value_altered;"
    else if database_system ∈ main_OPENDIC_EXPS then
      opendic_comment_query object_num num_exp
    else
      "comment on " ++ database_object.value ++ " t_" ++ toString object_num ++ " is ..."
  let (start_time, end_time, query_time) ←
    execute_timed_query driver database_system comment_query
  recorder_record database_system .COMMENT comment_query database_object
    (.enumMember granularity) num_exp (query_time : Rat) start_time end_time
  if database_system = .SQLITE ∧ database_object.value = "table" then
    rawExecute driver database_system
      ("alter table t_" ++ toString object_num ++ " RENAME COLUMN value_altered TO value;")
  else pure ()

/-- `main.alter_tables`: pick a random table, dispatch the
backend-dependent ALTER timed, record with `DDLCommand.ALTER` (passing
the `Granularity` enum member and `num_exp`), then `_comment_object`. -/
def main_alter_tables (driver : Driver) (database_system : consts.DatabaseSystem)
    (granularity : consts.Granularity) (num_exp : Int) : ExpM Unit := do
  let table_num ← nextRandom (granularity.value - 1)
  let alter_query :=
    if database_system ∈ main_OPENDIC_EXPS then
      opendic_alter_query table_num num_exp
    else
      "ALTER TABLE t_" ++ toString table_num ++ " ADD COLUMN altered_"
        ++ toString num_exp ++ " TEXT;"
  let (start_time, end_time, query_time) ←
    execute_timed_query driver database_system alter_query
  recorder_record database_system .ALTER alter_query .TABLE
    (.enumMember granularity) num_exp (query_time : Rat) start_time end_time
  main_comment_object driver database_system .TABLE granularity num_exp

/-- `main.show_objects`: build the backend-dependent listing query,
dispatch it timed, record with `DDLCommand.SHOW`. -/
def main_show_objects (driver : Driver) (database_system : consts.DatabaseSystem)
    (database_object : consts.DatabaseObject) (granularity : consts.Granularity)
    (num_exp : Int) : ExpM Unit := do
  let query :=
    if database_system = .SQLITE then
      "SELECT name FROM sqlite_master WHERE type = " ++ database_object.value
    else if database_system = .POSTGRES then postgres_show_query
    else if database_system = .SNOWFLAKE then "show tables limit 10000"
    else if database_system ∈ main_OPENDIC_EXPS then
      "show open " ++ database_object.value
    else "show tables"
  let (start_time, end_time, query_time) ← execute_timed_query driver database_system query
  recorder_record database_system .SHOW query database_object
    (.enumMember granularity) num_exp (query_time : Rat) start_time end_time

/-- `main.drop_schema`: its whole body sits in a `try/except` that logs
`Drop schema failed` and swallows the exception.  SQLite removes the
database file (no query); the systems without an assigned drop query
log `No drop query provided`. -/
def main_drop_schema (driver : Driver) (database_system : consts.DatabaseSystem)
    (database_object : consts.DatabaseObject) : ExpM Unit :=
  catchE
    (do
      let drop_query :=
        if database_system = .DUCKDB then "DROP SCHEMA experiment CASCADE;"
        else if database_system = .POSTGRES then
          "DROP SCHEMA public CASCADE; CREATE SCHEMA public;"
        else if database_system = .SNOWFLAKE then
          "use schema public; DROP SCHEMA if exists metadata_experiment CASCADE;"
        else if database_system ∈ main_OPENDIC_EXPS then
          "DROP OPEN " ++ database_object.value
        else "None"
      logMsg "Dropped"
      if drop_query = "None" then logMsg "No drop query provided"
      else do
        let _ ← execute_timed_query driver database_system drop_query
        pure ())
    (fun _ => logMsg "Drop schema failed")

/-- The `for num_exp in range(3)` loop inside a granularity tier:
`alter_tables` then `show_objects` per repetition. -/
def exp_loop (driver : Driver) (database_system : consts.DatabaseSystem)
    (gran : consts.Granularity) : List Int → ExpM Unit
  | [] => pure ()
  | num_exp :: rest => do
    main_alter_tables driver database_system gran num_exp
    main_show_objects driver database_system .TABLE gran num_exp
    exp_loop driver database_system gran rest

/-- The body of one granularity tier of `experiment_standard`: status
logs, connect, `create_tables` (with logging), three
alter/show repetitions, `drop_schema`. -/
def tier_body (driver : Driver) (database_system : consts.DatabaseSystem)
    (gran : consts.Granularity) : ExpM Unit := do
  logMsg "Status: started"
  connect_standard_database database_system
  logMsg "Status: connected"
  main_create_tables driver database_system gran true
  exp_loop driver database_system gran [0, 1, 2]
  logMsg "Status: SUCCESSFUL"
  main_drop_schema driver database_system .TABLE

/-- The `for gran in Granularity` loop of `experiment_standard`. -/
def tier_loop (driver : Driver) (database_system : consts.DatabaseSystem) :
    List consts.Granularity → ExpM Unit
  | [] => pure ()
  | gran :: rest => do
    tier_body driver database_system gran
    tier_loop driver database_system rest

/-- The iteration order of `for gran in Granularity`. -/
def consts.Granularity.members : List consts.Granularity :=
  [.s_1, .s_10, .s_100, .s_1000, .s_10000, .s_100000]

/-- `main.experiment_standard`: the whole granularity loop inside one
`try`, whose `except` logs `Experiment 1 failed` (terminating the run
without re-raising), and a `finally` that logs the finish line. -/
def experiment_standard (driver : Driver) (database_system : consts.DatabaseSystem) :
    ExpM Unit := do
  catchE
    (do
      logMsg "Starting experiment 1!"
      tier_loop driver database_system consts.Granularity.members)
    (fun _ => logMsg "Experiment 1 failed")
  logMsg "Experiment 1 finished."

/-- The state at the start of a run: fresh clock and traces, the store
just initialized by the `DataRecorder` constructor. -/
def init_state : ExpState :=
  { clock := 0
    executed := []
    logs := []
    store := DataRecorder._initialize_tables []
    randoms := []
    record_args := [] }

/-! ## `create_tables` of `exp_table.py`

Same creation loop, with a `start_idx` parameter, the consts
(five-member) `OPENDIC_EXPS`, and the *actual* per-backend query text
logged — but still the raw loop index `i` and the constant `0` as the
`granularity` and `repetition_nr` arguments of `recorder.record`. -/

/-- The creation loop of `exp_table.create_tables` over
`range(i0, i0 + fuel)`. -/
def exp_table_create_loop (driver : Driver) (database_system : consts.DatabaseSystem)
    (logging : Bool) : Nat → Nat → ExpM Unit
  | _, 0 => pure ()
  | i, fuel + 1 => do
    let query :=
      if database_system ∈ consts.OPENDIC_EXPS then opendic_create_query i
      else create_table_query i
    let (start_time, end_time, query_time) ← execute_timed_query driver database_system query
    if logging then
      recorder_record database_system .CREATE query .TABLE
        (.intLit (i : Int)) 0 (query_time : Rat) start_time end_time
    else pure ()
    exp_table_create_loop driver database_system logging (i + 1) fuel

/-- `exp_table.create_tables`. -/
def exp_table_create_tables (driver : Driver) (database_system : consts.DatabaseSystem)
    (num_objects : consts.Granularity) (logging : Bool) (start_idx : Nat) : ExpM Unit := do
  if database_system = .DUCKDB then
    let _ ← execute_timed_query driver database_system duckdb_init_query
    pure ()
  else if database_system = .SNOWFLAKE then
    rawExecute driver database_system "CREATE or replace SCHEMA metadata_experiment"
    rawExecute driver database_system "use schema metadata_experiment;"
  else if database_system ∈ consts.OPENDIC_EXPS ∧ start_idx = 0 then
    let _ ← execute_timed_query driver database_system opendic_define_query
    pure ()
  else pure ()
  exp_table_create_loop driver database_system logging start_idx
    (num_objects.value - start_idx)

/-! ## The cleanup step of `main` -/

/-- The `--db` choice to `DatabaseSystem` map of `main`
(`db_system_map`). -/
def db_system_map : String → Option consts.DatabaseSystem
  | "sqlite" => some .SQLITE
  | "duckdb" => some .DUCKDB
  | "postgres" => some .POSTGRES
  | "snowflake" => some .SNOWFLAKE
  | "opendic_file" => some .OPENDIC_POLARIS_FILE
  | "opendic_file_cached" => some .OPENDIC_POLARIS_FILE_CACHED
  | "opendic_cloud_azure" => some .OPENDIC_POLARIS_AZURE
  | _ => none

/-- `main.close_database`: closes the connection for the four standard
backends and for the members of main's `OPENDIC_EXPS` (where closing is
a no-op); raises `ValueError` otherwise.  The `isinstance` guards hold
in `main`, since the connection was built for that same system. -/
def main_close_database (database_system : consts.DatabaseSystem) : Except PyErr Unit :=
  match database_system with
  | .SQLITE => .ok ()
  | .DUCKDB => .ok ()
  | .POSTGRES => .ok ()
  | .SNOWFLAKE => .ok ()
  | _ =>
    if database_system ∈ main_OPENDIC_EXPS then .ok ()
    else .error (.valueError "Unknown database system")

/-- The attribute lookup `recorder.close` made by `main`'s `finally`
block: `DataRecorder` exposes no such attribute, so the call raises
`AttributeError`. -/
def recorder_close_call : Except PyErr Unit :=
  if "close" ∈ DataRecorder.attributes then .ok ()
  else .error (.attributeError "close")

/-- The `finally` block of `main`: `close_database(database_system,
conn)` then `recorder.close()`. -/
def main_finally (database_system : consts.DatabaseSystem) : Except PyErr Unit := do
  main_close_database database_system
  recorder_close_call

/-! ## Concrete drivers and states used to instantiate the theorems -/

/-- A driver on which every dispatch completes after 5 clock units. -/
def unit_driver : Driver := { run := fun _ _ => .ok (), elapsed := fun _ _ => 5 }

/-- A driver on which every dispatch raises. -/
def err_driver : Driver :=
  { run := fun _ q => .error (.queryError q), elapsed := fun _ _ => 5 }

/-- A driver that raises exactly on the first standard CREATE query. -/
def create_fail_driver : Driver :=
  { run := fun _ q => if q = create_table_query 0 then .error (.queryError q) else .ok ()
    elapsed := fun _ _ => 1 }

/-- The final state of `experiment_standard` under `create_fail_driver`
on the SQLite backend: the failing CREATE is dispatched once, the
failure is logged, and the run terminates. -/
def c6_state : ExpState :=
  { clock := 0
    executed := [create_table_query 0]
    logs := ["Starting experiment 1!", "Status: started", "Status: connected",
             "Experiment 1 failed", "Experiment 1 finished."]
    store := DataRecorder._initialize_tables []
    randoms := []
    record_args := [] }

/-- A store whose sqlite results table already holds one row, used to
exercise the duplicate-primary-key error. -/
def dup_store : Store :=
  [("sqlitedb_logs",
     [{ system_name := "sqlite"
        ddl_command := "CREATE"
        query_text := "CREATE TABLE t_0 (id INTEGER PRIMARY KEY, value TEXT);"
        target_object := "table"
        granularity := 1
        repetition_nr := 0
        query_runtime := 1/100
        start_time := 100
        end_time := 200 }]),
   ("postgresdb_logs", []), ("duckDBdb_logs", []), ("snowflakedb_logs", [])]

/-- An `ExpState` holding `dup_store`, for the atomicity conjunct. -/
def dup_state : ExpState :=
  { clock := 0
    executed := []
    logs := []
    store := dup_store
    randoms := []
    record_args := [] }

/-! ## Unfolding lemmas for the state monad -/

@[simp] theorem ExpM.bind_apply {α β : Type} (x : ExpM α) (f : α → ExpM β) (s : ExpState) :
    (x >>= f) s =
      match x s with
      | (.ok a, s2) => f a s2
      | (.error e, s2) => (.error e, s2) := rfl

@[simp] theorem ExpM.pure_apply {α : Type} (a : α) (s : ExpState) :
    (pure a : ExpM α) s = (.ok a, s) := rfl

/-! ## Store lemmas -/

/-- Appending a row to the named table (the map `insertRow` performs)
extends exactly that table's row list. -/
theorem getTable_map_append (s : Store) (name : String) (r : Row) (rows : List Row)
    (h : Store.getTable s name = some rows) :
    Store.getTable (List.map (fun t => if t.1 == name then (t.1, t.2 ++ [r]) else t) s) name
      = some (rows ++ [r]) := by
  induction s with
  | nil => simp [Store.getTable] at h
  | cons hd tl ih =>
    obtain ⟨k, v⟩ := hd
    unfold Store.getTable at h ih ⊢
    by_cases hh : (k == name) = true
    · have hfind : List.find? (fun t => t.1 == name) ((k, v) :: tl) = some (k, v) :=
        List.find?_cons_of_pos tl hh
      rw [hfind, Option.map_some'] at h
      injection h with h
      rw [List.map_cons]
      have hmap : (if ((k, v) : String × List Row).1 == name
          then (((k, v) : String × List Row).1, ((k, v) : String × List Row).2 ++ [r])
          else (k, v)) = (k, v ++ [r]) := by
        simp [hh]
      rw [hmap]
      have hfind2 : List.find? (fun t => t.1 == name)
          ((k, v ++ [r]) :: List.map (fun t => if t.1 == name then (t.1, t.2 ++ [r]) else t) tl)
            = some (k, v ++ [r]) :=
        List.find?_cons_of_pos _ hh
      rw [hfind2, Option.map_some', ← h]
    · have hfind : List.find? (fun t => t.1 == name) ((k, v) :: tl)
          = List.find? (fun t => t.1 == name) tl :=
        List.find?_cons_of_neg tl hh
      rw [hfind] at h
      rw [List.map_cons]
      have hmap : (if ((k, v) : String × List Row).1 == name
          then (((k, v) : String × List Row).1, ((k, v) : String × List Row).2 ++ [r])
          else (k, v)) = (k, v) := by
        simp [hh]
      rw [hmap]
      have hfind2 : List.find? (fun t => t.1 == name)
          ((k, v) :: List.map (fun t => if t.1 == name then (t.1, t.2 ++ [r]) else t) tl)
            = List.find? (fun t => t.1 == name)
                (List.map (fun t => if t.1 == name then (t.1, t.2 ++ [r]) else t) tl) :=
        List.find?_cons_of_neg _ hh
      rw [hfind2]
      exact ih h

/-- `CREATE TABLE IF NOT EXISTS` makes its table exist. -/
theorem hasTable_create_self (s : Store) (n : String) :
    (s.createTableIfNotExists n).hasTable n = true := by
  unfold Store.createTableIfNotExists
  by_cases h : s.hasTable n
  · rw [if_pos h]; exact h
  · rw [if_neg h]
    unfold Store.hasTable
    rw [List.any_append]
    simp

/-- `CREATE TABLE IF NOT EXISTS` keeps every existing table. -/
theorem hasTable_create_mono (s : Store) (m n : String) (h : s.hasTable n = true) :
    (s.createTableIfNotExists m).hasTable n = true := by
  unfold Store.createTableIfNotExists
  by_cases hm : s.hasTable m
  · rw [if_pos hm]; exact h
  · rw [if_neg hm]
    unfold Store.hasTable at h ⊢
    rw [List.any_append, h, Bool.true_or]

/-- `CREATE TABLE IF NOT EXISTS` is a no-op on an existing table. -/
theorem create_of_hasTable (s : Store) (n : String) (h : s.hasTable n = true) :
    s.createTableIfNotExists n = s := by
  simp [Store.createTableIfNotExists, h]

/-- After construction, every backend of the recorder module's own
enum has its results table (the amended form of the per-backend table
guarantee: it covers the four standard backends, not the
open-dictionary ones). -/
theorem initialize_tables_per_recorder_member (s : Store)
    (system : data_recorder.DatabaseSystem) :
    (DataRecorder._initialize_tables s).hasTable (log_table_name system.value) = true := by
  simp only [DataRecorder._initialize_tables, data_recorder.DatabaseSystem.members,
    List.foldl_cons, List.foldl_nil]
  cases system
  · exact hasTable_create_mono _ _ _ (hasTable_create_mono _ _ _
      (hasTable_create_mono _ _ _ (hasTable_create_self _ _)))
  · exact hasTable_create_mono _ _ _ (hasTable_create_mono _ _ _ (hasTable_create_self _ _))
  · exact hasTable_create_mono _ _ _ (hasTable_create_self _ _)
  · exact hasTable_create_self _ _

/-! ## Claims about the Result Recorder -/

/-- Claim C3 (confirmed): running the Result Recorder's
table-initialization step a second time against the same store is a
no-op — the set of results tables and their contents after the second
initialization equal those after the first, and the step is a total
function of the store (`CREATE TABLE IF NOT EXISTS` has no failing
case), so nothing is raised and no table creation is duplicated. -/
theorem initialize_tables_idempotent (s : Store) :
    DataRecorder._initialize_tables (DataRecorder._initialize_tables s)
      = DataRecorder._initialize_tables s := by
  simp only [DataRecorder._initialize_tables, data_recorder.DatabaseSystem.members,
    List.foldl_cons, List.foldl_nil, data_recorder.DatabaseSystem.value]
  set t := ((((s.createTableIfNotExists (log_table_name "sqlite")).createTableIfNotExists
    (log_table_name "postgres")).createTableIfNotExists
    (log_table_name "duckDB")).createTableIfNotExists (log_table_name "snowflake")) with ht
  have h1 : t.hasTable (log_table_name "sqlite") = true := by
    rw [ht]
    exact hasTable_create_mono _ _ _ (hasTable_create_mono _ _ _
      (hasTable_create_mono _ _ _ (hasTable_create_self _ _)))
  have h2 : t.hasTable (log_table_name "postgres") = true := by
    rw [ht]
    exact hasTable_create_mono _ _ _ (hasTable_create_mono _ _ _ (hasTable_create_self _ _))
  have h3 : t.hasTable (log_table_name "duckDB") = true := by
    rw [ht]
    exact hasTable_create_mono _ _ _ (hasTable_create_self _ _)
  have h4 : t.hasTable (log_table_name "snowflake") = true := by
    rw [ht]
    exact hasTable_create_self _ _
  rw [create_of_hasTable _ _ h1, create_of_hasTable _ _ h2,
    create_of_hasTable _ _ h3, create_of_hasTable _ _ h4]

/-- Claim C1 (confirmed): appending an Experiment Record through
`DataRecorder.record` (with a `Granularity` enum member, a fresh
primary key, and an existing target table) succeeds, and reading the
backend's results table back at that key yields a row whose
`granularity` and `repetition_nr` equal the appended inputs exactly
and whose `query_text` is the input string verbatim, whatever
characters it contains — the insert passes the field values as
parameters, never splicing them into the SQL string. -/
theorem record_roundtrip (store : Store) (system : consts.DatabaseSystem)
    (ddl_command : consts.DDLCommand) (query_text : String)
    (target_object : consts.DatabaseObject) (g : consts.Granularity)
    (repetition_nr : Int) (query_runtime : Rat) (start_time end_time : Nat)
    (rows : List Row)
    (htab : store.getTable (log_table_name system.value) = some rows)
    (hkey : rows.any (fun q => q.primaryKey ==
      (system.value, ddl_command.value, target_object.value, (g.value : Int),
        repetition_nr)) = false) :
    ∃ store2,
      DataRecorder.record store system ddl_command query_text target_object
        (.enumMember g) repetition_nr query_runtime start_time end_time = .ok store2 ∧
      store2.selectRow (log_table_name system.value)
        (system.value, ddl_command.value, target_object.value, (g.value : Int),
          repetition_nr) =
        some { system_name := system.value
               ddl_command := ddl_command.value
               query_text := query_text
               target_object := target_object.value
               granularity := (g.value : Int)
               repetition_nr := repetition_nr
               query_runtime := query_runtime
               start_time := start_time
               end_time := end_time } := by
  have hrec : DataRecorder.record store system ddl_command query_text target_object
      (.enumMember g) repetition_nr query_runtime start_time end_time =
      .ok (List.map (fun t => if t.1 == log_table_name system.value
        then (t.1, t.2 ++ [{ system_name := system.value
                             ddl_command := ddl_command.value
                             query_text := query_text
                             target_object := target_object.value
                             granularity := (g.value : Int)
                             repetition_nr := repetition_nr
                             query_runtime := query_runtime
                             start_time := start_time
                             end_time := end_time }]) else t) store) := by
    simp only [DataRecorder.record, GranularityArg.valueAttr, Store.insertRow, htab,
      Row.primaryKey, hkey]
    simp
    intro x hx h1 h2 h3 h4 h5
    have hx2 := List.any_eq_false.mp hkey x hx
    simp only [Row.primaryKey, Prod.mk.injEq, beq_iff_eq] at hx2
    exact hx2 ⟨h1, h2, h3, h4, h5⟩
  refine ⟨_, hrec, ?_⟩
  unfold Store.selectRow
  rw [getTable_map_append store _ _ rows htab]
  simp only [Option.bind_eq_bind, Option.some_bind]
  rw [List.find?_append]
  have hnone : List.find? (fun r => r.primaryKey ==
      (system.value, ddl_command.value, target_object.value, (g.value : Int),
        repetition_nr)) rows = none := by
    rw [List.find?_eq_none]
    exact List.any_eq_false.mp hkey
  rw [hnone]
  simp [Row.primaryKey]

/-- Witness for C1: recording a concrete row (with quote and percent
characters in the query text) into the freshly initialized store, and
reading it back at its key. -/
theorem record_roundtrip_witness :
    (DataRecorder._initialize_tables []).getTable (log_table_name
      consts.DatabaseSystem.SQLITE.value) = some [] ∧
    ([] : List Row).any (fun q => q.primaryKey ==
      ("sqlite", "CREATE", "table", ((consts.Granularity.s_10.value : Nat) : Int), (3 : Int)))
        = false ∧
    (∃ store2,
      DataRecorder.record (DataRecorder._initialize_tables []) .SQLITE .CREATE
        "CREATE TABLE t_0 (id INTEGER PRIMARY KEY, value TEXT); -- \"odd\" % chars" .TABLE
        (.enumMember .s_10) 3 (1/2) 11 13 = .ok store2 ∧
      store2.selectRow (log_table_name consts.DatabaseSystem.SQLITE.value)
        ("sqlite", "CREATE", "table", ((consts.Granularity.s_10.value : Nat) : Int), (3 : Int)) =
        some { system_name := "sqlite"
               ddl_command := "CREATE"
               query_text :=
                 "CREATE TABLE t_0 (id INTEGER PRIMARY KEY, value TEXT); -- \"odd\" % chars"
               target_object := "table"
               granularity := ((consts.Granularity.s_10.value : Nat) : Int)
               repetition_nr := (3 : Int)
               query_runtime := 1/2
               start_time := 11
               end_time := 13 }) :=
  ⟨rfl, rfl,
    record_roundtrip (DataRecorder._initialize_tables []) .SQLITE .CREATE
      "CREATE TABLE t_0 (id INTEGER PRIMARY KEY, value TEXT); -- \"odd\" % chars" .TABLE
      .s_10 3 (1/2) 11 13 [] rfl rfl⟩

/-- Claim C7 (confirmed): recording the example record (backend
sqlite, command CREATE, the standard CREATE TABLE text, object table,
granularity 1, repetition 0, duration 0.01, timestamps T0 = 100 and
T1 = 200) into the freshly initialized store produces exactly one new
row — the sqlite results table holds precisely that row with those
literal field values, and the other tables stay empty. -/
theorem record_sqlite_example :
    DataRecorder.record (DataRecorder._initialize_tables []) .SQLITE .CREATE
      "CREATE TABLE t_0 (id INTEGER PRIMARY KEY, value TEXT);" .TABLE
      (.enumMember .s_1) 0 (1/100) 100 200 =
      .ok [("sqlitedb_logs",
             [{ system_name := "sqlite"
                ddl_command := "CREATE"
                query_text := "CREATE TABLE t_0 (id INTEGER PRIMARY KEY, value TEXT);"
                target_object := "table"
                granularity := 1
                repetition_nr := 0
                query_runtime := 1/100
                start_time := 100
                end_time := 200 }]),
           ("postgresdb_logs", []), ("duckDBdb_logs", []), ("snowflakedb_logs", [])] := by
  rfl

/-- Claim C4 (code bug): the recorder's initialization creates results
tables only for the four members of the `DatabaseSystem` enum defined
inside `data_recorder.py`; the open-dictionary backends of
`consts.DatabaseSystem` (which `main.py` selects for `--db
opendic_file` runs and records into a dedicated log store) get no
table, so `record` for such a backend fails with a missing-table
error instead of inserting. -/
theorem no_table_for_opendic_backend :
    (DataRecorder._initialize_tables []).hasTable
      (log_table_name consts.DatabaseSystem.OPENDIC_POLARIS_FILE.value) = false ∧
    DataRecorder.record (DataRecorder._initialize_tables []) .OPENDIC_POLARIS_FILE
      .CREATE "CREATE OPEN table t_0 PROPS ..." .TABLE (.enumMember .s_1) 0 0 0 0 =
      .error (.duckdbCatalogError "opendict_polaris_filedb_logs") := by
  refine ⟨?_, ?_⟩
  · rfl
  · rfl

/-- Claim C9 (confirmed): every results table carries the primary key
`(system_name, ddl_command, target_object, granularity,
repetition_nr)`, so recording a second Experiment Record whose five
key fields equal those of a stored row makes the INSERT raise the
constraint error, and the store the caller holds is unchanged
(atomicity on error: the erroring `record` returns no new store, and
the stateful wrapper keeps the old one). -/
theorem record_duplicate_key (store : Store) (system : consts.DatabaseSystem)
    (ddl_command : consts.DDLCommand) (query_text : String)
    (target_object : consts.DatabaseObject) (g : consts.Granularity)
    (repetition_nr : Int) (query_runtime : Rat) (start_time end_time : Nat)
    (rows : List Row)
    (htab : store.getTable (log_table_name system.value) = some rows)
    (hdup : rows.any (fun q => q.primaryKey ==
      (system.value, ddl_command.value, target_object.value, (g.value : Int),
        repetition_nr)) = true) :
    DataRecorder.record store system ddl_command query_text target_object
      (.enumMember g) repetition_nr query_runtime start_time end_time =
      .error .duckdbConstraintError ∧
    ∀ (s : ExpState), s.store = store →
      ((recorder_record system ddl_command query_text target_object
        (.enumMember g) repetition_nr query_runtime start_time end_time) s).2.store
        = store := by
  have hrec : DataRecorder.record store system ddl_command query_text target_object
      (.enumMember g) repetition_nr query_runtime start_time end_time =
      .error .duckdbConstraintError := by
    simp only [DataRecorder.record, GranularityArg.valueAttr, Store.insertRow, htab,
      Row.primaryKey, hdup]
    simp
    obtain ⟨x, hx, hp⟩ := List.any_eq_true.mp hdup
    simp only [Row.primaryKey, Prod.mk.injEq, beq_iff_eq] at hp
    exact ⟨x, hx, hp⟩
  refine ⟨hrec, ?_⟩
  intro s hs
  unfold recorder_record
  rw [hs, hrec]

/-- Witness for C9: re-recording the key of the row already stored in
`dup_store` (with different non-key fields) raises the constraint
error and leaves the store alone. -/
theorem record_duplicate_key_witness :
    dup_store.getTable (log_table_name consts.DatabaseSystem.SQLITE.value) =
      some [{ system_name := "sqlite"
              ddl_command := "CREATE"
              query_text := "CREATE TABLE t_0 (id INTEGER PRIMARY KEY, value TEXT);"
              target_object := "table"
              granularity := 1
              repetition_nr := 0
              query_runtime := 1/100
              start_time := 100
              end_time := 200 }] ∧
    ([{ system_name := "sqlite"
        ddl_command := "CREATE"
        query_text := "CREATE TABLE t_0 (id INTEGER PRIMARY KEY, value TEXT);"
        target_object := "table"
        granularity := 1
        repetition_nr := 0
        query_runtime := 1/100
        start_time := 100
        end_time := 200 }] : List Row).any (fun q => q.primaryKey ==
      ("sqlite", "CREATE", "table", ((consts.Granularity.s_1.value : Nat) : Int), (0 : Int)))
        = true ∧
    DataRecorder.record dup_store .SQLITE .CREATE "some other query text" .TABLE
        (.enumMember .s_1) 0 (3/4) 300 400 = .error .duckdbConstraintError ∧
    ((recorder_record .SQLITE .CREATE "some other query text" .TABLE
        (.enumMember .s_1) 0 (3/4) 300 400) dup_state).2.store = dup_store :=
  ⟨rfl, rfl,
    (record_duplicate_key dup_store .SQLITE .CREATE "some other query text" .TABLE
      .s_1 0 (3/4) 300 400 _ rfl rfl).1,
    (record_duplicate_key dup_store .SQLITE .CREATE "some other query text" .TABLE
      .s_1 0 (3/4) 300 400 _ rfl rfl).2 dup_state rfl⟩

/-! ## Claims about the Timed Executor -/

/-- Claim C2 (confirmed): whenever `execute_timed_query` returns a
triple `(start, end, elapsed)`, the end timestamp is not earlier than
the start, `elapsed` equals end minus start, the start is the clock
value at entry (captured immediately before dispatch), and the end is
the clock value on exit (captured immediately after completion). -/
theorem execute_timed_query_ordered (driver : Driver)
    (database_system : consts.DatabaseSystem) (query : String) (s : ExpState)
    (t0 t1 : Nat) (d : Int)
    (h : (execute_timed_query driver database_system query s).1 = .ok (t0, t1, d)) :
    t0 ≤ t1 ∧ d = (t1 : Int) - (t0 : Int) ∧ t0 = s.clock ∧
      t1 = ((execute_timed_query driver database_system query s).2).clock := by
  rcases hr : driver.run database_system query with e | u
  · simp [execute_timed_query, hr] at h
  · simp [execute_timed_query, hr] at h ⊢
    obtain ⟨h0, h1, h2⟩ := h
    subst h0
    subst h1
    subst h2
    refine ⟨Nat.le_add_right _ _, by omega, rfl, rfl⟩

/-- Witness for C2: a successful dispatch that takes 5 clock units
from the fresh state. -/
theorem execute_timed_query_ordered_witness :
    (execute_timed_query unit_driver .SQLITE "show tables" init_state).1 = .ok (0, 5, 5) ∧
    ((0 : Nat) ≤ 5 ∧ (5 : Int) = ((5 : Nat) : Int) - ((0 : Nat) : Int) ∧
      (0 : Nat) = init_state.clock ∧
      (5 : Nat) = ((execute_timed_query unit_driver .SQLITE "show tables" init_state).2).clock) :=
  ⟨rfl, execute_timed_query_ordered unit_driver .SQLITE "show tables" init_state 0 5 5 rfl⟩

/-- Claim C5 (confirmed): when the backend driver raises on a query,
`execute_timed_query` propagates exactly that error to its caller —
it returns no partial result, dispatches the query exactly once (the
dispatch trace grows by exactly that one query), and performs no
retry and no other state change. -/
theorem execute_timed_query_propagates_error (driver : Driver)
    (database_system : consts.DatabaseSystem) (query : String) (s : ExpState) (e : PyErr)
    (h : driver.run database_system query = .error e) :
    execute_timed_query driver database_system query s =
      (.error e, { s with executed := s.executed ++ [query] }) := by
  simp [execute_timed_query, h]

/-- Witness for C5: a driver that raises on every dispatch. -/
theorem execute_timed_query_propagates_error_witness :
    err_driver.run .SQLITE "show tables" = .error (.queryError "show tables") ∧
    execute_timed_query err_driver .SQLITE "show tables" init_state =
      (.error (.queryError "show tables"),
       { init_state with executed := init_state.executed ++ ["show tables"] }) :=
  ⟨rfl, execute_timed_query_propagates_error err_driver .SQLITE "show tables" init_state
    (.queryError "show tables") rfl⟩

/-! ## Behaviour of the creation loops

With logging on, the first loop iteration dispatches its CREATE query
and then calls `recorder.record` with the plain `int` loop index as
`granularity`, which raises `AttributeError` before the INSERT runs —
so the loop never reaches a second iteration. -/

/-- One step of `main.create_tables`'s loop: dispatch, then die in
`record` (when the dispatch itself did not already raise). -/
theorem main_create_loop_run (driver : Driver) (database_system : consts.DatabaseSystem)
    (i n : Nat) (hn : n ≠ 0) (s : ExpState) :
    main_create_loop driver database_system true i n s =
      (let query := if database_system ∈ main_OPENDIC_EXPS then opendic_create_query i
                    else create_table_query i
       match driver.run database_system query with
       | .error e => (.error e, { s with executed := s.executed ++ [query] })
       | .ok _ =>
         (.error (.attributeError "value"),
          { s with executed := s.executed ++ [query],
                   clock := s.clock + driver.elapsed database_system query,
                   record_args := s.record_args ++ [(.intLit (i : Int), 0)] })) := by
  obtain ⟨m, rfl⟩ : ∃ m, n = m + 1 :=
    ⟨n - 1, (Nat.succ_pred_eq_of_pos (Nat.pos_of_ne_zero hn)).symm⟩
  rcases hr : driver.run database_system
      (if database_system ∈ main_OPENDIC_EXPS then opendic_create_query i
       else create_table_query i) with e | u
  · simp [main_create_loop, execute_timed_query, recorder_record, DataRecorder.record,
      GranularityArg.valueAttr, hr]
  · simp [main_create_loop, execute_timed_query, recorder_record, DataRecorder.record,
      GranularityArg.valueAttr, hr]

/-- One step of `exp_table.create_tables`'s loop: same shape, with the
consts `OPENDIC_EXPS` and the actual query text logged. -/
theorem exp_table_create_loop_run (driver : Driver) (database_system : consts.DatabaseSystem)
    (i n : Nat) (hn : n ≠ 0) (s : ExpState) :
    exp_table_create_loop driver database_system true i n s =
      (let query := if database_system ∈ consts.OPENDIC_EXPS then opendic_create_query i
                    else create_table_query i
       match driver.run database_system query with
       | .error e => (.error e, { s with executed := s.executed ++ [query] })
       | .ok _ =>
         (.error (.attributeError "value"),
          { s with executed := s.executed ++ [query],
                   clock := s.clock + driver.elapsed database_system query,
                   record_args := s.record_args ++ [(.intLit (i : Int), 0)] })) := by
  obtain ⟨m, rfl⟩ : ∃ m, n = m + 1 :=
    ⟨n - 1, (Nat.succ_pred_eq_of_pos (Nat.pos_of_ne_zero hn)).symm⟩
  rcases hr : driver.run database_system
      (if database_system ∈ consts.OPENDIC_EXPS then opendic_create_query i
       else create_table_query i) with e | u
  · simp [exp_table_create_loop, execute_timed_query, recorder_record, DataRecorder.record,
      GranularityArg.valueAttr, hr]
  · simp [exp_table_create_loop, execute_timed_query, recorder_record, DataRecorder.record,
      GranularityArg.valueAttr, hr]

/-- `record` called with a plain `int` granularity raises before the
insert runs. -/
theorem record_int_granularity_raises (store : Store) (system : consts.DatabaseSystem)
    (ddl_command : consts.DDLCommand) (query_text : String)
    (target_object : consts.DatabaseObject) (n : Int) (repetition_nr : Int)
    (query_runtime : Rat) (start_time end_time : Nat) :
    DataRecorder.record store system ddl_command query_text target_object
      (.intLit n) repetition_nr query_runtime start_time end_time =
      .error (.attributeError "value") := by
  simp [DataRecorder.record, GranularityArg.valueAttr]

/-- `main.create_tables` with logging adds no row to the store, and
its only `record` call (the run dies there or before) passed the raw
loop index `0` and repetition `0`. -/
theorem main_create_tables_int_granularity (driver : Driver)
    (database_system : consts.DatabaseSystem) (gran : consts.Granularity) :
    (main_create_tables driver database_system gran true init_state).2.store
        = init_state.store ∧
    ((main_create_tables driver database_system gran true init_state).2.record_args = [] ∨
     (main_create_tables driver database_system gran true init_state).2.record_args
        = [(.intLit 0, (0 : Int))]) := by
  have hgv : gran.value ≠ 0 := by cases gran <;> decide
  cases database_system
  case SQLITE =>
    rcases h0 : driver.run .SQLITE (create_table_query 0) with e | u <;>
      simp [main_create_tables, execute_timed_query, h0, init_state, main_OPENDIC_EXPS,
        main_create_loop_run driver .SQLITE 0 gran.value hgv]
  case DUCKDB =>
    rcases h0 : driver.run .DUCKDB duckdb_init_query with e | u
    · simp [main_create_tables, execute_timed_query, h0, init_state, main_OPENDIC_EXPS]
    · rcases h1 : driver.run .DUCKDB (create_table_query 0) with e1 | u1 <;>
        simp [main_create_tables, execute_timed_query, h0, h1, init_state, main_OPENDIC_EXPS,
          main_create_loop_run driver .DUCKDB 0 gran.value hgv]
  case POSTGRES =>
    rcases h0 : driver.run .POSTGRES (create_table_query 0) with e | u <;>
      simp [main_create_tables, execute_timed_query, h0, init_state, main_OPENDIC_EXPS,
        main_create_loop_run driver .POSTGRES 0 gran.value hgv]
  case SNOWFLAKE =>
    rcases h0 : driver.run .SNOWFLAKE "CREATE or replace SCHEMA metadata_experiment" with e | u
    · simp [main_create_tables, rawExecute, h0, init_state, main_OPENDIC_EXPS]
    · rcases h1 : driver.run .SNOWFLAKE "use schema metadata_experiment;" with e1 | u1
      · simp [main_create_tables, rawExecute, h0, h1, init_state, main_OPENDIC_EXPS]
      · rcases h2 : driver.run .SNOWFLAKE (create_table_query 0) with e2 | u2 <;>
          simp [main_create_tables, rawExecute, execute_timed_query, h0, h1, h2, init_state,
            main_OPENDIC_EXPS, main_create_loop_run driver .SNOWFLAKE 0 gran.value hgv]
  case OPENDIC_POLARIS_FILE =>
    rcases h0 : driver.run .OPENDIC_POLARIS_FILE opendic_define_query with e | u
    · simp [main_create_tables, execute_timed_query, h0, init_state, main_OPENDIC_EXPS]
    · rcases h1 : driver.run .OPENDIC_POLARIS_FILE (opendic_create_query 0) with e1 | u1 <;>
        simp [main_create_tables, execute_timed_query, h0, h1, init_state, main_OPENDIC_EXPS,
          main_create_loop_run driver .OPENDIC_POLARIS_FILE 0 gran.value hgv]
  case OPENDIC_POLARIS_FILE_CACHED =>
    rcases h0 : driver.run .OPENDIC_POLARIS_FILE_CACHED opendic_define_query with e | u
    · simp [main_create_tables, execute_timed_query, h0, init_state, main_OPENDIC_EXPS]
    · rcases h1 : driver.run .OPENDIC_POLARIS_FILE_CACHED (opendic_create_query 0) with e1 | u1 <;>
        simp [main_create_tables, execute_timed_query, h0, h1, init_state, main_OPENDIC_EXPS,
          main_create_loop_run driver .OPENDIC_POLARIS_FILE_CACHED 0 gran.value hgv]
  case OPENDIC_POLARIS_AZURE =>
    rcases h0 : driver.run .OPENDIC_POLARIS_AZURE opendic_define_query with e | u
    · simp [main_create_tables, execute_timed_query, h0, init_state, main_OPENDIC_EXPS]
    · rcases h1 : driver.run .OPENDIC_POLARIS_AZURE (opendic_create_query 0) with e1 | u1 <;>
        simp [main_create_tables, execute_timed_query, h0, h1, init_state, main_OPENDIC_EXPS,
          main_create_loop_run driver .OPENDIC_POLARIS_AZURE 0 gran.value hgv]
  case OPENDIC_POLARIS_FILE_BATCH =>
    rcases h0 : driver.run .OPENDIC_POLARIS_FILE_BATCH (create_table_query 0) with e | u <;>
      simp [main_create_tables, execute_timed_query, h0, init_state, main_OPENDIC_EXPS,
        main_create_loop_run driver .OPENDIC_POLARIS_FILE_BATCH 0 gran.value hgv]
  case OPENDIC_POLARIS_FILE_CACHED_BATCH =>
    rcases h0 : driver.run .OPENDIC_POLARIS_FILE_CACHED_BATCH (create_table_query 0) with e | u <;>
      simp [main_create_tables, execute_timed_query, h0, init_state, main_OPENDIC_EXPS,
        main_create_loop_run driver .OPENDIC_POLARIS_FILE_CACHED_BATCH 0 gran.value hgv]

/-- `exp_table.create_tables` from `start_idx = 0`, with logging: same
outcome as the `main.py` copy. -/
theorem exp_table_create_tables_int_granularity (driver : Driver)
    (database_system : consts.DatabaseSystem) (gran : consts.Granularity) :
    (exp_table_create_tables driver database_system gran true 0 init_state).2.store
        = init_state.store ∧
    ((exp_table_create_tables driver database_system gran true 0 init_state).2.record_args
        = [] ∨
     (exp_table_create_tables driver database_system gran true 0 init_state).2.record_args
        = [(.intLit 0, (0 : Int))]) := by
  have hgv : gran.value ≠ 0 := by cases gran <;> decide
  cases database_system
  case SQLITE =>
    rcases h0 : driver.run .SQLITE (create_table_query 0) with e | u <;>
      simp [exp_table_create_tables, execute_timed_query, h0, init_state, consts.OPENDIC_EXPS,
        exp_table_create_loop_run driver .SQLITE 0 gran.value hgv]
  case POSTGRES =>
    rcases h0 : driver.run .POSTGRES (create_table_query 0) with e | u <;>
      simp [exp_table_create_tables, execute_timed_query, h0, init_state, consts.OPENDIC_EXPS,
        exp_table_create_loop_run driver .POSTGRES 0 gran.value hgv]
  case DUCKDB =>
    rcases h0 : driver.run .DUCKDB duckdb_init_query with e | u
    · simp [exp_table_create_tables, execute_timed_query, h0, init_state, consts.OPENDIC_EXPS]
    · rcases h1 : driver.run .DUCKDB (create_table_query 0) with e1 | u1 <;>
        simp [exp_table_create_tables, execute_timed_query, h0, h1, init_state,
          consts.OPENDIC_EXPS, exp_table_create_loop_run driver .DUCKDB 0 gran.value hgv]
  case SNOWFLAKE =>
    rcases h0 : driver.run .SNOWFLAKE "CREATE or replace SCHEMA metadata_experiment" with e | u
    · simp [exp_table_create_tables, rawExecute, h0, init_state, consts.OPENDIC_EXPS]
    · rcases h1 : driver.run .SNOWFLAKE "use schema metadata_experiment;" with e1 | u1
      · simp [exp_table_create_tables, rawExecute, h0, h1, init_state, consts.OPENDIC_EXPS]
      · rcases h2 : driver.run .SNOWFLAKE (create_table_query 0) with e2 | u2 <;>
          simp [exp_table_create_tables, rawExecute, execute_timed_query, h0, h1, h2,
            init_state, consts.OPENDIC_EXPS,
            exp_table_create_loop_run driver .SNOWFLAKE 0 gran.value hgv]
  case OPENDIC_POLARIS_FILE =>
    rcases h0 : driver.run .OPENDIC_POLARIS_FILE opendic_define_query with e | u
    · simp [exp_table_create_tables, execute_timed_query, h0, init_state, consts.OPENDIC_EXPS]
    · rcases h1 : driver.run .OPENDIC_POLARIS_FILE (opendic_create_query 0) with e1 | u1 <;>
        simp [exp_table_create_tables, execute_timed_query, h0, h1, init_state,
          consts.OPENDIC_EXPS,
          exp_table_create_loop_run driver .OPENDIC_POLARIS_FILE 0 gran.value hgv]
  case OPENDIC_POLARIS_FILE_BATCH =>
    rcases h0 : driver.run .OPENDIC_POLARIS_FILE_BATCH opendic_define_query with e | u
    · simp [exp_table_create_tables, execute_timed_query, h0, init_state, consts.OPENDIC_EXPS]
    · rcases h1 : driver.run .OPENDIC_POLARIS_FILE_BATCH (opendic_create_query 0) with e1 | u1 <;>
        simp [exp_table_create_tables, execute_timed_query, h0, h1, init_state,
          consts.OPENDIC_EXPS,
          exp_table_create_loop_run driver .OPENDIC_POLARIS_FILE_BATCH 0 gran.value hgv]
  case OPENDIC_POLARIS_FILE_CACHED =>
    rcases h0 : driver.run .OPENDIC_POLARIS_FILE_CACHED opendic_define_query with e | u
    · simp [exp_table_create_tables, execute_timed_query, h0, init_state, consts.OPENDIC_EXPS]
    · rcases h1 : driver.run .OPENDIC_POLARIS_FILE_CACHED (opendic_create_query 0) with e1 | u1 <;>
        simp [exp_table_create_tables, execute_timed_query, h0, h1, init_state,
          consts.OPENDIC_EXPS,
          exp_table_create_loop_run driver .OPENDIC_POLARIS_FILE_CACHED 0 gran.value hgv]
  case OPENDIC_POLARIS_FILE_CACHED_BATCH =>
    rcases h0 : driver.run .OPENDIC_POLARIS_FILE_CACHED_BATCH opendic_define_query with e | u
    · simp [exp_table_create_tables, execute_timed_query, h0, init_state, consts.OPENDIC_EXPS]
    · rcases h1 : driver.run .OPENDIC_POLARIS_FILE_CACHED_BATCH (opendic_create_query 0)
          with e1 | u1 <;>
        simp [exp_table_create_tables, execute_timed_query, h0, h1, init_state,
          consts.OPENDIC_EXPS,
          exp_table_create_loop_run driver .OPENDIC_POLARIS_FILE_CACHED_BATCH 0
            gran.value hgv]
  case OPENDIC_POLARIS_AZURE =>
    rcases h0 : driver.run .OPENDIC_POLARIS_AZURE opendic_define_query with e | u
    · simp [exp_table_create_tables, execute_timed_query, h0, init_state, consts.OPENDIC_EXPS]
    · rcases h1 : driver.run .OPENDIC_POLARIS_AZURE (opendic_create_query 0) with e1 | u1 <;>
        simp [exp_table_create_tables, execute_timed_query, h0, h1, init_state,
          consts.OPENDIC_EXPS,
          exp_table_create_loop_run driver .OPENDIC_POLARIS_AZURE 0 gran.value hgv]

/-- Claim C8 (confirmed): `DataRecorder.record` reads `.value` off its
`granularity` argument, so a call with a plain integer raises
`AttributeError` before the insert executes (first conjunct); and both
`create_tables` drivers (`main.py` and `exp_table.py`) pass the raw
loop index as `granularity` and the constant `0` as `repetition_nr`
on every logged creation — under any driver, such a run adds no row
to the store, and the one `record` call it reaches received
`(intLit 0, 0)` (second and third conjuncts). -/
theorem create_tables_pass_raw_loop_index :
    (∀ (store : Store) (system : consts.DatabaseSystem)
      (ddl_command : consts.DDLCommand) (query_text : String)
      (target_object : consts.DatabaseObject) (n : Int) (repetition_nr : Int)
      (query_runtime : Rat) (start_time end_time : Nat),
      DataRecorder.record store system ddl_command query_text target_object
        (.intLit n) repetition_nr query_runtime start_time end_time =
        .error (.attributeError "value")) ∧
    (∀ (driver : Driver) (database_system : consts.DatabaseSystem)
      (gran : consts.Granularity),
      (main_create_tables driver database_system gran true init_state).2.store
          = init_state.store ∧
      ((main_create_tables driver database_system gran true init_state).2.record_args = [] ∨
       (main_create_tables driver database_system gran true init_state).2.record_args
          = [(.intLit 0, (0 : Int))])) ∧
    (∀ (driver : Driver) (database_system : consts.DatabaseSystem)
      (gran : consts.Granularity),
      (exp_table_create_tables driver database_system gran true 0 init_state).2.store
          = init_state.store ∧
      ((exp_table_create_tables driver database_system gran true 0 init_state).2.record_args
          = [] ∨
       (exp_table_create_tables driver database_system gran true 0 init_state).2.record_args
          = [(.intLit 0, (0 : Int))])) :=
  ⟨record_int_granularity_raises, main_create_tables_int_granularity,
    exp_table_create_tables_int_granularity⟩

/-! ## Claims about the driver loop and cleanup -/

/-- Claim C6 (confirmed): `experiment_standard` never lets a failure
escape — the run always returns normally (`res = ok`), and whenever a
dispatched query failed, the outer driver loop logged the failure
(`Experiment 1 failed`) and, of the sentence's two allowed outcomes,
terminated the run: the failed query was dispatched exactly once
(never retried) and was the last query dispatched (nothing of the run
— in particular no later granularity tier — executed after it). -/
theorem experiment_standard_failure (driver : Driver)
    (database_system : consts.DatabaseSystem) (res : Except PyErr Unit) (s2 : ExpState)
    (h : experiment_standard driver database_system init_state = (res, s2)) :
    res = .ok () ∧
    ∀ (q : String) (e : PyErr), q ∈ s2.executed →
      driver.run database_system q = .error e →
      ("Experiment 1 failed" ∈ s2.logs ∧ s2.executed.count q = 1 ∧
        s2.executed.getLast? = some q) := by
  cases database_system
  case SQLITE =>
    rcases h0 : driver.run .SQLITE (create_table_query 0) with e0 | u0 <;>
      · simp [experiment_standard, catchE, logMsg, tier_loop, tier_body,
          connect_standard_database, consts.Granularity.members, main_create_tables,
          main_OPENDIC_EXPS, consts.Granularity.value,
          main_create_loop_run driver .SQLITE 0 1 (by decide), h0, init_state,
          Prod.mk.injEq] at h
        obtain ⟨rfl, rfl⟩ := h
        refine ⟨rfl, ?_⟩
        intro q e hq hqe
        simp at hq
        subst hq
        first
        | exact ⟨by simp, by simp [List.count_cons] <;> decide, by simp⟩
        | (rw [h0] at hqe; simp at hqe)
  case POSTGRES =>
    rcases h0 : driver.run .POSTGRES (create_table_query 0) with e0 | u0 <;>
      · simp [experiment_standard, catchE, logMsg, tier_loop, tier_body,
          connect_standard_database, consts.Granularity.members, main_create_tables,
          main_OPENDIC_EXPS, consts.Granularity.value,
          main_create_loop_run driver .POSTGRES 0 1 (by decide), h0, init_state,
          Prod.mk.injEq] at h
        obtain ⟨rfl, rfl⟩ := h
        refine ⟨rfl, ?_⟩
        intro q e hq hqe
        simp at hq
        subst hq
        first
        | exact ⟨by simp, by simp [List.count_cons] <;> decide, by simp⟩
        | (rw [h0] at hqe; simp at hqe)
  case DUCKDB =>
    rcases h0 : driver.run .DUCKDB duckdb_init_query with e0 | u0
    · simp [experiment_standard, catchE, logMsg, tier_loop, tier_body,
        connect_standard_database, consts.Granularity.members, main_create_tables,
        main_OPENDIC_EXPS, consts.Granularity.value, execute_timed_query,
        h0, init_state, Prod.mk.injEq] at h
      obtain ⟨rfl, rfl⟩ := h
      refine ⟨rfl, ?_⟩
      intro q e hq hqe
      simp at hq
      subst hq
      exact ⟨by simp, by simp [List.count_cons] <;> decide, by simp⟩
    · rcases h1 : driver.run .DUCKDB (create_table_query 0) with e1 | u1 <;>
        · simp [experiment_standard, catchE, logMsg, tier_loop, tier_body,
            connect_standard_database, consts.Granularity.members, main_create_tables,
            main_OPENDIC_EXPS, consts.Granularity.value, execute_timed_query,
            main_create_loop_run driver .DUCKDB 0 1 (by decide), h0, h1, init_state,
            Prod.mk.injEq] at h
          obtain ⟨rfl, rfl⟩ := h
          refine ⟨rfl, ?_⟩
          intro q e hq hqe
          simp at hq
          rcases hq with rfl | rfl
          · rw [h0] at hqe
            simp at hqe
          · first
            | exact ⟨by simp, by simp [List.count_cons] <;> decide, by simp⟩
            | (rw [h1] at hqe; simp at hqe)
  case SNOWFLAKE =>
    rcases h0 : driver.run .SNOWFLAKE "CREATE or replace SCHEMA metadata_experiment"
        with e0 | u0
    · simp [experiment_standard, catchE, logMsg, tier_loop, tier_body,
        connect_standard_database, consts.Granularity.members, main_create_tables,
        main_OPENDIC_EXPS, consts.Granularity.value, rawExecute,
        h0, init_state, Prod.mk.injEq] at h
      obtain ⟨rfl, rfl⟩ := h
      refine ⟨rfl, ?_⟩
      intro q e hq hqe
      simp at hq
      subst hq
      exact ⟨by simp, by simp [List.count_cons] <;> decide, by simp⟩
    · rcases h1 : driver.run .SNOWFLAKE "use schema metadata_experiment;" with e1 | u1
      · simp [experiment_standard, catchE, logMsg, tier_loop, tier_body,
          connect_standard_database, consts.Granularity.members, main_create_tables,
          main_OPENDIC_EXPS, consts.Granularity.value, rawExecute,
          h0, h1, init_state, Prod.mk.injEq] at h
        obtain ⟨rfl, rfl⟩ := h
        refine ⟨rfl, ?_⟩
        intro q e hq hqe
        simp at hq
        rcases hq with rfl | rfl
        · rw [h0] at hqe
          simp at hqe
        · exact ⟨by simp, by simp [List.count_cons] <;> decide, by simp⟩
      · rcases h2 : driver.run .SNOWFLAKE (create_table_query 0) with e2 | u2 <;>
          · simp [experiment_standard, catchE, logMsg, tier_loop, tier_body,
              connect_standard_database, consts.Granularity.members, main_create_tables,
              main_OPENDIC_EXPS, consts.Granularity.value, rawExecute, execute_timed_query,
              main_create_loop_run driver .SNOWFLAKE 0 1 (by decide), h0, h1, h2,
              init_state, Prod.mk.injEq] at h
            obtain ⟨rfl, rfl⟩ := h
            refine ⟨rfl, ?_⟩
            intro q e hq hqe
            simp at hq
            rcases hq with rfl | rfl | rfl
            · rw [h0] at hqe
              simp at hqe
            · rw [h1] at hqe
              simp at hqe
            · first
              | exact ⟨by simp, by simp [List.count_cons] <;> decide, by simp⟩
              | (rw [h2] at hqe; simp at hqe)
  all_goals
    simp [experiment_standard, catchE, logMsg, tier_loop, tier_body,
      connect_standard_database, consts.Granularity.members, throwE, init_state,
      Prod.mk.injEq] at h
    obtain ⟨rfl, rfl⟩ := h
    refine ⟨rfl, ?_⟩
    intro q e hq hqe
    simp at hq

/-- Witness for C6: under a driver that raises exactly on the first
CREATE query, the SQLite run dispatches that query once, logs the
failure, and terminates with it as the last dispatch. -/
theorem experiment_standard_failure_witness :
    experiment_standard create_fail_driver .SQLITE init_state = (.ok (), c6_state) ∧
    ("Experiment 1 failed" ∈ c6_state.logs ∧
      c6_state.executed.count (create_table_query 0) = 1 ∧
      c6_state.executed.getLast? = some (create_table_query 0)) :=
  ⟨rfl,
    (experiment_standard_failure create_fail_driver .SQLITE (.ok ()) c6_state rfl).2
      (create_table_query 0) (.queryError (create_table_query 0))
      (by simp [c6_state]) rfl⟩

/-- Claim C10 (confirmed): the `DataRecorder` class exposes no `close`
attribute (each `record` call opens and closes its own store
connection), yet `main`'s `finally` block calls `recorder.close()`
after `close_database` — so for every backend reachable through
`main`'s `--db` map, the cleanup step raises `AttributeError` once the
experiment body has finished. -/
theorem main_cleanup_raises :
    ¬ ("close" ∈ DataRecorder.attributes) ∧
    (∀ (choice : String) (database_system : consts.DatabaseSystem),
      db_system_map choice = some database_system →
      main_finally database_system = .error (.attributeError "close")) := by
  refine ⟨by decide, ?_⟩
  intro choice database_system h
  unfold db_system_map at h
  split at h <;>
    first
    | (injection h with h2; subst h2; rfl)
    | simp at h

/-- Witness for C10: the SQLite run reaches cleanup and the
`recorder.close()` call raises. -/
theorem main_cleanup_raises_witness :
    db_system_map "sqlite" = some consts.DatabaseSystem.SQLITE ∧
    main_finally .SQLITE = .error (.attributeError "close") :=
  ⟨rfl, main_cleanup_raises.2 "sqlite" .SQLITE rfl⟩

end OpendicBenchmark
